import Mathlib

/-!
Verification of the test/benchmark orchestration scripts of
nvpro-samples/vk_video_samples against their natural-language specification.

The Python scripts under `scripts/` are shallowly embedded below:
pure helper functions become Lean functions; the outcome
classification is a function of the observable inputs (exit code, merged
stdout/stderr text, artifact state); the interaction with the outside world
(file existence, process spawning) is passed in as an explicit oracle so that
"no process is spawned" is expressible as an empty spawn trace.

Modelling conventions:
* Python `str` is Lean `String` / `List Char`; `str.lower` is mapped to
  ASCII lowercasing (`Char.toLower`), matching the ASCII markers the scripts
  search for.
* Python floats are modelled as rationals (`ℚ`); the delta computations the
  claims mention are exact at the claimed inputs in both models.
* Python exceptions caught by a `try` block are modelled by an inductive
  spawn-outcome type, so that a handler is a total function on it.
-/

namespace VkVideo

/-- ASCII lowercasing of a string, the embedding of Python `str.lower()`
as applied by the scripts to ASCII tool output. -/
def lowerStr (s : String) : String :=
  ⟨s.data.map Char.toLower⟩

/-- Boolean list-level test that `pre` is an initial segment of `l`. -/
def isPrefixL : List Char → List Char → Bool
  | [], _ => true
  | _ :: _, [] => false
  | a :: as, b :: bs => a == b && isPrefixL as bs

/-- Boolean substring search on character lists: embedding of the Python
containment test `needle in haystack`. -/
def containsL (needle : List Char) : List Char → Bool
  | [] => isPrefixL needle []
  | c :: cs => isPrefixL needle (c :: cs) || containsL needle cs

/-- String-level substring search: `containsSub hay needle` is the embedding
of Python `needle in hay`. -/
def containsSub (hay needle : String) : Bool :=
  containsL needle.data hay.data

/-- Split a character list on newline characters, the embedding of Python
`text.split('\n')`. -/
def splitOnNl : List Char → List (List Char)
  | [] => [[]]
  | c :: cs =>
    match splitOnNl cs with
    | [] => [[]]
    | l :: ls => if c = '\n' then [] :: l :: ls else (c :: l) :: ls

/-- First `n` characters of a string, the embedding of Python `s[:n]`. -/
def strTake (n : Nat) (s : String) : String :=
  ⟨s.data.take n⟩

/-! ## run_encoder_tests.py — EncoderTestRunner -/

/-- Classification outcomes of `EncoderTestRunner.run_test` after the
process has run (`run_encoder_tests.py` lines 216-236). -/
inductive EncOutcome
  | validationErrors
  | passed
  | unknownError
  | failed
  deriving DecidableEq, Repr

/-- Embedding of the result-classification block of
`EncoderTestRunner.run_test`: on exit code 0 it checks for the
case-insensitive marker "validation error", then the guard
`"Done processing" in output or returncode == 0`, else "Unknown error";
on a non-zero exit code it is a failure.  The declared output artifact is
not an input: the code never consults it. -/
def encClassify (returncode : Int) (output : String) : EncOutcome :=
  if returncode == 0 then
    if containsSub (lowerStr output) "validation error" then
      .validationErrors
    else if containsSub output "Done processing" || returncode == 0 then
      .passed
    else
      .unknownError
  else
    .failed

/-- Embedding of the `TestResult` dataclass shared by the encoder and
decoder test runners. -/
structure TestResultRec where
  name : String
  passed : Bool
  skipped : Bool
  duration : ℚ
  message : String
  deriving DecidableEq, Repr

/-- The `TestResult` record appended by `EncoderTestRunner.run_test` for
each classification outcome. -/
def encRecord (name : String) (dur : ℚ) (rc : Int) (output stderr : String) :
    TestResultRec :=
  match encClassify rc output with
  | .validationErrors => ⟨name, false, false, dur, "Validation errors"⟩
  | .passed => ⟨name, true, false, dur, ""⟩
  | .unknownError => ⟨name, false, false, dur, "Unknown error"⟩
  | .failed =>
      ⟨name, false, false, dur,
        if stderr ≠ "" then strTake 200 stderr else "Unknown error"⟩

/-! ## run_decoder_tests.py — DecoderTestRunner -/

/-- Classification outcomes of `DecoderTestRunner.run_test`
(`run_decoder_tests.py` lines 202-221). -/
inductive DecOutcome
  | validationErrors
  | passed
  | failed
  deriving DecidableEq, Repr

/-- Embedding of the result-classification block of
`DecoderTestRunner.run_test`: on exit code 0 only the case-insensitive
marker "validation error" can fail the case. -/
def decClassify (returncode : Int) (output : String) : DecOutcome :=
  if returncode == 0 then
    if containsSub (lowerStr output) "validation error" then
      .validationErrors
    else
      .passed
  else
    .failed

/-- The `TestResult` record appended by `DecoderTestRunner.run_test` for
each classification outcome. -/
def decRecord (name : String) (dur : ℚ) (rc : Int) (output stderr : String) :
    TestResultRec :=
  match decClassify rc output with
  | .validationErrors => ⟨name, false, false, dur, "Validation errors"⟩
  | .passed => ⟨name, true, false, dur, ""⟩
  | .failed =>
      ⟨name, false, false, dur,
        if stderr ≠ "" then strTake 200 stderr else "Unknown error"⟩

/-! ## vulkan_video_test.py — TestRunner -/

/-- The `TestResult` enumeration of `vulkan_video_test.py`. -/
inductive VvtStatus
  | passed
  | failed
  | skipped
  | error
  deriving DecidableEq, Repr

/-- Embedding of `TestRunner._count_validation_errors`: the number of
output lines containing at least one of the four case-sensitive markers. -/
def countValidationErrors (output : String) : Nat :=
  ((splitOnNl output.data).filter fun line =>
    containsL "VALIDATION ERROR".data line ||
    containsL "Validation Error".data line ||
    containsL "VK_ERROR_".data line ||
    containsL "ERROR:".data line).length

/-- Embedding of the status determination in `TestRunner.run_test`
(`vulkan_video_test.py` lines 652-658): on exit code 0 the case fails only
when the validation-error count is positive AND validation is enabled. -/
def vvtClassify (returncode : Int) (output : String)
    (enableValidation : Bool) : VvtStatus :=
  if returncode == 0 then
    if 0 < countValidationErrors output && enableValidation then
      .failed
    else
      .passed
  else
    .failed

/-! ## run_decoder_roundtrip.py — run_decode -/

/-- Embedding of the zero-exit classification in `run_decode`
(`run_decoder_roundtrip.py` lines 74-82): the returned pair is
(success, message).  On exit code 0 the case fails only when the lowered
output contains "error" and does NOT contain "validation". -/
def runDecodeClassify (returncode : Int) (stdout stderr : String) :
    Bool × String :=
  let output := stdout ++ stderr
  if returncode == 0 then
    let lower := lowerStr output
    if containsSub lower "error" && !containsSub lower "validation" then
      (false, "Decode error in output")
    else
      (true, "")
  else
    (false, strTake 200 stderr)

/-! ## run_command (EncoderTestRunner / DecoderTestRunner) -/

/-- Observable fate of the `subprocess.run` call inside the `try` block of
`run_command`: it either completes with an exit code and captured output,
raises `subprocess.TimeoutExpired`, or raises some other exception whose
`str()` is `msg`. -/
inductive SpawnOutcome
  | completed (rc : Int) (stdout stderr : String)
  | timeout
  | exnMsg (msg : String)
  deriving DecidableEq, Repr

/-- Embedding of the exception handling shared by the local and remote
branches of `EncoderTestRunner.run_command` and
`DecoderTestRunner.run_command`: every spawn fate is mapped to a structured
(exit code, stdout, stderr) triple, so the function is total and no
exception crosses the boundary. -/
def runCommandResult (spawn : SpawnOutcome) : Int × String × String :=
  match spawn with
  | .completed rc stdout stderr => (rc, stdout, stderr)
  | .timeout => (-1, "", "Timeout")
  | .exnMsg msg => (-1, "", msg)

/-! ## run_test with an explicit world oracle -/

/-- World oracle for a test runner: file-existence checks and process
execution (`runCmd` returns exit code, stdout, stderr and wall-clock
duration). -/
structure World where
  fileExists : String → Bool
  runCmd : List String → Int × String × String × ℚ

/-- Output-file extension map shared by the encoder runners
(`ext_map` in `run_encoder_tests.py` / `run_encoder_profile_tests.py`). -/
def extMap (codec : String) : String :=
  if codec = "h264" then ".264"
  else if codec = "h265" then ".265"
  else if codec = "av1" then ".ivf"
  else ".bin"

/-- Codec-name mapping of `EncoderTestRunner.run_test`
(`codec_arg = "hevc" if codec == "h265" else codec`). -/
def encCodecArg (codec : String) : String :=
  if codec = "h265" then "hevc" else codec

/-- Command vector built by `EncoderTestRunner.run_test`. -/
def encBuildCmd (encoder input codecArg : String) (width height : Nat)
    (chroma : String) (maxFrames : Nat) (outputFile : String) (bpp : Nat)
    (extraArgs : List String) : List String :=
  [encoder, "-i", input, "-c", codecArg,
   "--inputWidth", toString width, "--inputHeight", toString height,
   "--inputChromaSubsampling", chroma,
   "--numFrames", toString maxFrames, "-o", outputFile]
  ++ (if bpp ≠ 8 then ["--inputBpp", toString bpp] else [])
  ++ extraArgs

/-- Configuration fields of `EncoderTestRunner` consulted by `run_test`. -/
structure EncConfig where
  filterCodec : String
  outputDir : String
  maxFrames : Nat
  encoder : String

/-- Embedding of `EncoderTestRunner.run_test`: returns the appended
`TestResult` record (or `none` when the codec filter drops the case) together
with the list of commands handed to `run_command`.  The input-file existence
check precedes command construction, so a missing file yields a SKIPPED
record and an empty spawn list. -/
def encRunTest (cfg : EncConfig) (w : World) (name codec input : String)
    (width height bpp : Nat) (chroma : String) (extraArgs : List String) :
    Option TestResultRec × List (List String) :=
  if cfg.filterCodec ≠ "" && cfg.filterCodec ≠ codec then
    (none, [])
  else if !w.fileExists input then
    (some ⟨name, false, true, 0, "File not found"⟩, [])
  else
    let outputFile := cfg.outputDir ++ "/" ++ name ++ extMap codec
    let cmd := encBuildCmd cfg.encoder input (encCodecArg codec) width height
      chroma cfg.maxFrames outputFile bpp extraArgs
    let (rc, stdout, stderr, dur) := w.runCmd cmd
    (some (encRecord name dur rc (stdout ++ stderr) stderr), [cmd])

/-- Command vector built by `DecoderTestRunner.run_test`. -/
def decBuildCmd (decoder input codec : String) (maxFrames : Nat)
    (outputFile : String) (validate : Bool) : List String :=
  [decoder, "-i", input, "--noPresent", "--codec", codec,
   "-c", toString maxFrames, "-o", outputFile]
  ++ (if validate then ["-v"] else [])

/-- Configuration fields of `DecoderTestRunner` consulted by `run_test`. -/
structure DecConfig where
  filterCodec : String
  outputDir : String
  maxFrames : Nat
  decoder : String
  validate : Bool

/-- Embedding of `DecoderTestRunner.run_test`, analogous to `encRunTest`. -/
def decRunTest (cfg : DecConfig) (w : World) (name codec input : String) :
    Option TestResultRec × List (List String) :=
  if cfg.filterCodec ≠ "" && cfg.filterCodec ≠ codec then
    (none, [])
  else if !w.fileExists input then
    (some ⟨name, false, true, 0, "File not found"⟩, [])
  else
    let outputFile := cfg.outputDir ++ "/" ++ name ++ ".yuv"
    let cmd := decBuildCmd cfg.decoder input codec cfg.maxFrames outputFile
      cfg.validate
    let (rc, stdout, stderr, dur) := w.runCmd cmd
    (some (decRecord name dur rc (stdout ++ stderr) stderr), [cmd])

/-! ## Driver exit statuses -/

/-- Embedding of the return value of `EncoderTestRunner.run_all_tests`
(`run_encoder_tests.py` lines 359-364): success iff no failure was counted
AND at least one test passed. -/
def encRunAllSuccess (passed failed : Nat) : Bool :=
  failed == 0 && 0 < passed

/-- Process exit status of `run_encoder_tests.py` `main`
(`return 0 if success else 1`). -/
def encMainExit (passed failed skipped : Nat) : Nat :=
  let _ := skipped
  if encRunAllSuccess passed failed then 0 else 1

/-- Embedding of the return value of
`EncoderProfileTestRunner.run_all_tests` (`run_encoder_profile_tests.py`
lines 547-555): success iff no failure AND at least one pass. -/
def profRunAllSuccess (passed failed : Nat) : Bool :=
  failed == 0 && 0 < passed

/-- Process exit status of `run_encoder_profile_tests.py` `main`. -/
def profMainExit (passed failed skipped : Nat) : Nat :=
  let _ := skipped
  if profRunAllSuccess passed failed then 0 else 1

/-- Embedding of the return value of `TestRunner.print_summary`
(`vulkan_video_test.py` line 793): `passed == total and total > 0`. -/
def vvtAllPassed (statuses : List VvtStatus) : Bool :=
  statuses.countP (· = .passed) == statuses.length && 0 < statuses.length

/-- Process exit status of `vulkan_video_test.py` `main`
(`return 0 if all_passed else 1`). -/
def vvtMainExit (statuses : List VvtStatus) : Nat :=
  if vvtAllPassed statuses then 0 else 1

/-! ## run_encoder_profile_tests.py — _run_profile_for_codec -/

/-- Classification outcomes of
`EncoderProfileTestRunner._run_profile_for_codec`
(`run_encoder_profile_tests.py` lines 456-477). -/
inductive ProfOutcome
  | validationErrors
  | noOutputBitstream
  | passed
  | failed
  deriving DecidableEq, Repr

/-- Embedding of the result-classification block of
`_run_profile_for_codec`: on exit code 0, first the case-insensitive
"validation error" marker, then `check_file_nonempty` on the declared output
(existence AND positive size, passed in as `outputNonempty`), else pass. -/
def profClassify (returncode : Int) (output : String)
    (outputNonempty : Bool) : ProfOutcome :=
  if returncode == 0 then
    if containsSub (lowerStr output) "validation error" then
      .validationErrors
    else if !outputNonempty then
      .noOutputBitstream
    else
      .passed
  else
    .failed

/-! ## run_encoder_profile_tests.py — parse_yuv_filename -/

/-- Collect a maximal nonempty run of ASCII digits from the front of the
list; `none` when the list does not start with a digit.  Embeds a greedy
`\d+` group of `_YUV_FILENAME_RE`. -/
def munchDigits (l : List Char) : Option (List Char × List Char) :=
  let ds := l.takeWhile Char.isDigit
  if ds.isEmpty then none else some (ds, l.dropWhile Char.isDigit)

/-- Expect a single literal character at the front of the list. -/
def expectChar (c : Char) : List Char → Option (List Char)
  | x :: xs => if x = c then some xs else none
  | [] => none

/-- Expect exactly three ASCII digits (the `(\d{3})` chroma group). -/
def take3Digits : List Char → Option (List Char × List Char)
  | a :: b :: c :: rest =>
    if a.isDigit && b.isDigit && c.isDigit then some ([a, b, c], rest)
    else none
  | _ => none

/-- Decimal value of a digit list, the embedding of Python `int(...)` on a
regex digit group. -/
def digitsToNat (ds : List Char) : Nat :=
  ds.foldl (fun n c => 10 * n + (c.toNat - '0'.toNat)) 0

/-- Embedding of `EncoderProfileTestRunner.parse_yuv_filename`: match the
anchored pattern of `_YUV_FILENAME_RE`
(`^(\d+)x(\d+)_(\d{3})_(\d+)le(?:_packed)?\.yuv$`) and return
(width, height, bpp, chroma) or `none`.  Since Python `$` also matches just
before one trailing newline, a single trailing newline is accepted. -/
def parse_yuv_filename (f : List Char) : Option (Nat × Nat × Nat × String) := do
  let (ds1, r1) ← munchDigits f
  let r2 ← expectChar 'x' r1
  let (ds2, r3) ← munchDigits r2
  let r4 ← expectChar '_' r3
  let (ds3, r5) ← take3Digits r4
  let r6 ← expectChar '_' r5
  let (ds4, r7) ← munchDigits r6
  let r8 ← expectChar 'l' r7
  let r9 ← expectChar 'e' r8
  let r10 := if isPrefixL "_packed".data r9 then r9.drop 7 else r9
  if r10 = ".yuv".data ∨ r10 = ".yuv\n".data then
    some (digitsToNat ds1, digitsToNat ds2, digitsToNat ds4, ⟨ds3⟩)
  else
    none

/-! ## aq_quality_benchmark.py -/

/-- Embedding of the `AQConfiguration` class. -/
structure AQConfiguration where
  name : String
  spatialAq : ℚ
  temporalAq : ℚ
  description : String
  deriving DecidableEq, Repr

/-- Embedding of the fields of `EncoderResult` consulted by
`generate_report`. -/
structure EncoderResult where
  config : AQConfiguration
  fileSize : ℚ
  encodeSuccess : Bool
  psnrAvg : ℚ
  vmafScore : ℚ
  deriving DecidableEq, Repr

/-- Embedding of the post-spawn classification of `run_encoder`
(`aq_quality_benchmark.py` lines 296-302): encoding succeeds iff the exit
code is 0 AND the declared output file exists (its size is not checked);
the recorded file size is the artifact size on success and 0 otherwise. -/
def aqRunEncoderClassify (returncode : Int) (outputFileExists : Bool)
    (outputFileSize : ℚ) : Bool × ℚ :=
  if returncode == 0 && outputFileExists then (true, outputFileSize)
  else (false, 0)

/-- Baseline selection of `generate_report`
(`next((r for r in results if r.config.name == "no_aq"), None)`). -/
def findBaseline (results : List EncoderResult) : Option EncoderResult :=
  results.find? (fun r => r.config.name == "no_aq")

/-- `baseline_size` in `generate_report`: the file size of the baseline, or 0
when the baseline is absent. -/
def baselineSize (results : List EncoderResult) : ℚ :=
  match findBaseline results with
  | some b => b.fileSize
  | none => 0

/-- `baseline_vmaf` in `generate_report`. -/
def baselineVmaf (results : List EncoderResult) : ℚ :=
  match findBaseline results with
  | some b => b.vmafScore
  | none => 0

/-- A rendered delta cell of the summary table: either a numeric value or
the literal "N/A". -/
inductive Cell
  | val (q : ℚ)
  | na
  deriving DecidableEq, Repr

/-- The "vs Base" size cell computed per row of the Results Summary table
(`aq_quality_benchmark.py` lines 556-560). -/
def sizeDiffCell (results : List EncoderResult) (r : EncoderResult) : Cell :=
  let bs := baselineSize results
  if 0 < bs then .val ((r.fileSize - bs) / bs * 100) else .na

/-- The "vs Base" VMAF cell computed per row of the Results Summary table
(`aq_quality_benchmark.py` lines 562-566). -/
def vmafDiffCell (results : List EncoderResult) (r : EncoderResult) : Cell :=
  let bv := baselineVmaf results
  if 0 < bv then .val (r.vmafScore - bv) else .na

/-- The pair of delta cells actually rendered for a row of the Results
Summary table: a failed configuration renders literal "N/A" in both delta
columns (`aq_quality_benchmark.py` lines 568-577). -/
def summaryRowDeltas (results : List EncoderResult) (r : EncoderResult) :
    Cell × Cell :=
  if r.encodeSuccess then (sizeDiffCell results r, vmafDiffCell results r)
  else (.na, .na)

/-- One line of the "AQ Improvements vs Baseline" block: the description
with the three numeric deltas. -/
structure Improvement where
  description : String
  sizeDiff : ℚ
  psnrDiff : ℚ
  vmafDiff : ℚ
  deriving DecidableEq, Repr

/-- Embedding of the "AQ Improvements vs Baseline" block of
`generate_report` (`aq_quality_benchmark.py` lines 637-647): emitted only
when the baseline exists and its encode succeeded, and only for successful
non-baseline configurations; each line carries the percentage size delta,
absolute PSNR-average delta and absolute VMAF delta against the baseline.
This is the only place in the report where a PSNR delta is rendered. -/
def aqImprovements (results : List EncoderResult) : List Improvement :=
  match findBaseline results with
  | some b =>
    if b.encodeSuccess then
      (results.filter
        (fun r => r.config.name ≠ "no_aq" && r.encodeSuccess)).map
        (fun r =>
          ⟨r.config.description,
           (r.fileSize - b.fileSize) / b.fileSize * 100,
           r.psnrAvg - b.psnrAvg,
           r.vmafScore - b.vmafScore⟩)
    else []
  | none => []

/-! ## run_aq_encoder.py -/

/-- Embedding of the AQ-strength validation in `run_aq_encoder.py` `main`
(lines 403-407): `parser.error` (an argument error) fires exactly when a
strength exceeds 1.0; nothing is clamped. -/
def aqArgCheck (spatialAq temporalAq : ℚ) : Except String Unit :=
  if 1 < spatialAq then
    .error "--spatial-aq must be <= 1.0 (use < -1.0 to disable)"
  else if 1 < temporalAq then
    .error "--temporal-aq must be <= 1.0 (use < -1.0 to disable)"
  else
    .ok ()

/-- The AQ flags emitted by `build_command`
(`run_aq_encoder.py` lines 163-167): each strength is passed through
verbatim whenever present (argparse defaults both to -2.0, so they are
always present).  Values are kept as rationals rather than their decimal
rendering. -/
def buildCommandAqFlags (spatialAq temporalAq : Option ℚ) :
    List (String × ℚ) :=
  (match spatialAq with
   | some v => [("--spatialAQStrength", v)]
   | none => [])
  ++
  (match temporalAq with
   | some v => [("--temporalAQStrength", v)]
   | none => [])

/-- The "disabled" interpretation documented by `run_aq_encoder.py`
(help text and the line-403 comment: values < -1.0 mean disabled, 0.0 means
engaged at default strength). -/
def aqDisabled (v : ℚ) : Bool :=
  v < -1

/-! ## Helper lemmas for the filename-parser soundness proof -/

/-- A successful `munchDigits` splits the input into a nonempty all-digit
segment and the remainder. -/
theorem munchDigits_sound {l ds r : List Char}
    (h : munchDigits l = some (ds, r)) :
    l = ds ++ r ∧ ds ≠ [] ∧ ds.all Char.isDigit = true := by
  simp only [munchDigits] at h
  split at h
  · simp at h
  · rename_i hne
    rw [Option.some.injEq, Prod.mk.injEq] at h
    obtain ⟨hds, hr⟩ := h
    subst hds; subst hr
    refine ⟨(List.takeWhile_append_dropWhile _ _).symm, by simpa using hne, ?_⟩
    simp only [List.all_eq_true]
    intro c hc
    exact List.mem_takeWhile_imp hc

/-- A successful `expectChar` means the input starts with that character. -/
theorem expectChar_sound {c : Char} {l r : List Char}
    (h : expectChar c l = some r) : l = c :: r := by
  match l with
  | [] => simp [expectChar] at h
  | x :: xs =>
    simp only [expectChar] at h
    split at h
    · rename_i hx
      rw [Option.some.injEq] at h
      subst h; subst hx; rfl
    · simp at h

/-- A successful `take3Digits` splits off exactly three digits. -/
theorem take3Digits_sound {l ds r : List Char}
    (h : take3Digits l = some (ds, r)) :
    l = ds ++ r ∧ ds.length = 3 ∧ ds.all Char.isDigit = true := by
  match l with
  | [] => simp [take3Digits] at h
  | [a] => simp [take3Digits] at h
  | [a, b] => simp [take3Digits] at h
  | a :: b :: c :: rest =>
    simp only [take3Digits] at h
    split at h
    · rename_i habc
      rw [Option.some.injEq, Prod.mk.injEq] at h
      obtain ⟨hds, hr⟩ := h
      subst hds; subst hr
      refine ⟨rfl, rfl, ?_⟩
      simp only [Bool.and_eq_true] at habc
      simp only [List.all_cons, List.all_nil, Bool.and_true, Bool.and_eq_true]
      exact ⟨habc.1.1, habc.1.2, habc.2⟩
    · simp at h

/-- When `isPrefixL p l` holds, `l` decomposes as `p` followed by the rest. -/
theorem isPrefixL_sound : ∀ {p l : List Char}, isPrefixL p l = true →
    l = p ++ l.drop p.length
  | [], _, _ => rfl
  | a :: as, [], h => by simp [isPrefixL] at h
  | a :: as, b :: bs, h => by
    simp only [isPrefixL, Bool.and_eq_true, beq_iff_eq] at h
    obtain ⟨hab, hrest⟩ := h
    subst hab
    simp only [List.length_cons, List.drop_succ_cons, List.cons_append]
    exact congrArg (a :: ·) (isPrefixL_sound hrest)

/-- Soundness of `parse_yuv_filename`: any successful parse decomposes the
filename exactly per the `{width}x{height}_{chroma}_{bitdepth}le[_packed].yuv`
convention, and the returned tuple is the decimal reading of the matched
digit groups — never a partial or incorrect tuple. -/
theorem parse_yuv_filename_sound {f : List Char} {w h bpp : Nat}
    {chroma : String}
    (hp : parse_yuv_filename f = some (w, h, bpp, chroma)) :
    ∃ (ds1 ds2 ds3 ds4 : List Char) (packed nl : Bool),
      f = ds1 ++ 'x' :: ds2 ++ '_' :: ds3 ++ '_' :: ds4 ++ 'l' :: 'e' ::
        ((if packed then "_packed".data else []) ++ ".yuv".data ++
          (if nl then ['\n'] else [])) ∧
      ds1 ≠ [] ∧ ds1.all Char.isDigit = true ∧
      ds2 ≠ [] ∧ ds2.all Char.isDigit = true ∧
      ds3.length = 3 ∧ ds3.all Char.isDigit = true ∧
      ds4 ≠ [] ∧ ds4.all Char.isDigit = true ∧
      w = digitsToNat ds1 ∧ h = digitsToNat ds2 ∧ bpp = digitsToNat ds4 ∧
      chroma = ⟨ds3⟩ := by
  simp only [parse_yuv_filename, bind, Option.bind_eq_some] at hp
  obtain ⟨⟨ds1, r1⟩, h1, hp⟩ := hp
  obtain ⟨r2, h2, hp⟩ := hp
  obtain ⟨⟨ds2, r3⟩, h3, hp⟩ := hp
  obtain ⟨r4, h4, hp⟩ := hp
  obtain ⟨⟨ds3, r5⟩, h5, hp⟩ := hp
  obtain ⟨r6, h6, hp⟩ := hp
  obtain ⟨⟨ds4, r7⟩, h7, hp⟩ := hp
  obtain ⟨r8, h8, hp⟩ := hp
  obtain ⟨r9, h9, hp⟩ := hp
  obtain ⟨hf, hne1, hd1⟩ := munchDigits_sound h1
  have hx := expectChar_sound h2
  obtain ⟨hr2, hne2, hd2⟩ := munchDigits_sound h3
  have hu1 := expectChar_sound h4
  obtain ⟨hr4, hlen3, hd3⟩ := take3Digits_sound h5
  have hu2 := expectChar_sound h6
  obtain ⟨hr6, hne4, hd4⟩ := munchDigits_sound h7
  have hl := expectChar_sound h8
  have he := expectChar_sound h9
  by_cases hpk : isPrefixL "_packed".data r9 = true
  · rw [if_pos hpk] at hp
    rw [Option.ite_none_right_eq_some, Option.some.injEq] at hp
    obtain ⟨hcond, htuple⟩ := hp
    have hr9 : r9 = "_packed".data ++ r9.drop 7 := isPrefixL_sound hpk
    rcases hcond with hc | hc
    · refine ⟨ds1, ds2, ds3, ds4, true, false, ?_, hne1, hd1, hne2, hd2,
        hlen3, hd3, hne4, hd4, ?_, ?_, ?_, ?_⟩
      · subst hf hx hr2 hu1 hr4 hu2 hr6 hl he
        rw [hr9, hc]
        simp [List.append_assoc]
      · exact (congrArg (fun t => t.1) htuple).symm
      · exact (congrArg (fun t => t.2.1) htuple).symm
      · exact (congrArg (fun t => t.2.2.1) htuple).symm
      · exact (congrArg (fun t => t.2.2.2) htuple).symm
    · refine ⟨ds1, ds2, ds3, ds4, true, true, ?_, hne1, hd1, hne2, hd2,
        hlen3, hd3, hne4, hd4, ?_, ?_, ?_, ?_⟩
      · subst hf hx hr2 hu1 hr4 hu2 hr6 hl he
        rw [hr9, hc]
        simp [List.append_assoc]
      · exact (congrArg (fun t => t.1) htuple).symm
      · exact (congrArg (fun t => t.2.1) htuple).symm
      · exact (congrArg (fun t => t.2.2.1) htuple).symm
      · exact (congrArg (fun t => t.2.2.2) htuple).symm
  · rw [if_neg hpk] at hp
    rw [Option.ite_none_right_eq_some, Option.some.injEq] at hp
    obtain ⟨hcond, htuple⟩ := hp
    rcases hcond with hc | hc
    · refine ⟨ds1, ds2, ds3, ds4, false, false, ?_, hne1, hd1, hne2, hd2,
        hlen3, hd3, hne4, hd4, ?_, ?_, ?_, ?_⟩
      · subst hf hx hr2 hu1 hr4 hu2 hr6 hl he
        rw [hc]
        simp [List.append_assoc]
      · exact (congrArg (fun t => t.1) htuple).symm
      · exact (congrArg (fun t => t.2.1) htuple).symm
      · exact (congrArg (fun t => t.2.2.1) htuple).symm
      · exact (congrArg (fun t => t.2.2.2) htuple).symm
    · refine ⟨ds1, ds2, ds3, ds4, false, true, ?_, hne1, hd1, hne2, hd2,
        hlen3, hd3, hne4, hd4, ?_, ?_, ?_, ?_⟩
      · subst hf hx hr2 hu1 hr4 hu2 hr6 hl he
        rw [hc]
        simp [List.append_assoc]
      · exact (congrArg (fun t => t.1) htuple).symm
      · exact (congrArg (fun t => t.2.1) htuple).symm
      · exact (congrArg (fun t => t.2.2.1) htuple).symm
      · exact (congrArg (fun t => t.2.2.2) htuple).symm

/-! ## Claim theorems -/

/-- C1 counterexample: the claim says a zero-exit invocation with a missing
or zero-length declared output artifact is always FAILED.  In the benchmark
runner `run_encoder`, exit code 0 with an output file that exists but has
size 0 is classified a success; in `EncoderTestRunner.run_test`, a zero-exit
invocation without a validation marker is PASSED although the classifier
never consults the artifact at all. -/
theorem C1_zero_length_artifact_passes :
    (aqRunEncoderClassify 0 true 0).1 = true ∧
    encClassify 0 "Encoding completed." = EncOutcome.passed :=
  ⟨rfl, by decide⟩

/-- C1 (amended): only `_run_profile_for_codec` treats the artifact check as
authoritative (zero exit with a missing or empty output is FAILED with
"Output bitstream missing"); the benchmark `run_encoder` classifies success
as exit 0 AND mere existence of the output, accepting a zero-length file;
`EncoderTestRunner.run_test` performs no artifact check, so exit 0 without a
validation marker is PASSED regardless of the artifact. -/
theorem C1_artifact_check_amended (output : String) (ex : Bool) (size : ℚ)
    (hm : containsSub (lowerStr output) "validation error" = false) :
    profClassify 0 output false = ProfOutcome.noOutputBitstream ∧
    encClassify 0 output = EncOutcome.passed ∧
    (aqRunEncoderClassify 0 ex size).1 = ex := by
  refine ⟨?_, ?_, ?_⟩
  · simp [profClassify, hm]
  · simp [encClassify, hm]
  · cases ex <;> simp [aqRunEncoderClassify]

/-- C1 witness: the amended theorem applied at a concrete zero-exit
invocation. -/
theorem C1_artifact_check_amended_witness :
    profClassify 0 "Done processing" false = ProfOutcome.noOutputBitstream ∧
    encClassify 0 "Done processing" = EncOutcome.passed ∧
    (aqRunEncoderClassify 0 true 37).1 = true :=
  C1_artifact_check_amended "Done processing" true 37 (by decide)

/-- C2 counterexample: with exit code 0 and merged output containing the
phrase "validation error" in lower case, `vulkan_video_test.py` classifies
the case PASSED even with validation enabled, because its marker list is
case-sensitive ("VALIDATION ERROR", "Validation Error", "VK_ERROR_",
"ERROR:"); the claim says every runner records FAILED. -/
theorem C2_lowercase_marker_passes_vvt :
    vvtClassify 0 "validation error: sync hazard on queue submit" true =
      VvtStatus.passed := by
  decide

/-- C2 (amended): on exit code 0, `EncoderTestRunner.run_test` and
`DecoderTestRunner.run_test` record FAILED with a "Validation errors"
message whenever the merged output contains "validation error" in any
letter case; `TestRunner.run_test` of `vulkan_video_test.py` instead fails
exactly when at least one output line contains one of its four
case-sensitive markers AND validation is enabled. -/
theorem C2_validation_marker_amended (name : String) (dur : ℚ)
    (output stderr out : String) (ev : Bool)
    (hm : containsSub (lowerStr output) "validation error" = true) :
    encRecord name dur 0 output stderr =
      ⟨name, false, false, dur, "Validation errors"⟩ ∧
    decRecord name dur 0 output stderr =
      ⟨name, false, false, dur, "Validation errors"⟩ ∧
    (vvtClassify 0 out ev = VvtStatus.failed ↔
      0 < countValidationErrors out ∧ ev = true) := by
  refine ⟨?_, ?_, ?_⟩
  · simp [encRecord, encClassify, hm]
  · simp [decRecord, decClassify, hm]
  · by_cases hc : 0 < countValidationErrors out <;>
      cases ev <;> simp [vvtClassify, hc]

/-- C2 witness: the amended theorem applied at a concrete mixed-case
validation-error output. -/
theorem C2_validation_marker_amended_witness :
    encRecord "t" (0 : ℚ) 0 "Validation ERROR: sync hazard" "" =
      ⟨"t", false, false, 0, "Validation errors"⟩ :=
  (C2_validation_marker_amended "t" 0 "Validation ERROR: sync hazard" ""
    "" false (by decide)).1

/-- C3: in `run_decode` of `run_decoder_roundtrip.py`, a zero-exit
invocation whose lowered output contains the word "validation" is never
classified as a decode failure by the bare "error" token check — the
presence of "validation" nullifies it; and in `DecoderTestRunner.run_test`
a zero-exit output without the compound phrase "validation error" is
PASSED. -/
theorem C3_validation_nullifies_error (stdout stderr out : String)
    (hv : containsSub (lowerStr (stdout ++ stderr)) "validation" = true)
    (hne : containsSub (lowerStr out) "validation error" = false) :
    (runDecodeClassify 0 stdout stderr).1 = true ∧
    decClassify 0 out = DecOutcome.passed := by
  constructor
  · simp [runDecodeClassify, hv]
  · simp [decClassify, hne]

/-- C3 witness: the synthetic regression line from the specification,
which contains both "validation" and "errors" yet passes. -/
theorem C3_validation_nullifies_error_witness :
    (runDecodeClassify 0
      "Decoder: using validation layer, no errors detected" "").1 = true ∧
    decClassify 0 "Decoder: using validation layer, no errors detected" =
      DecOutcome.passed :=
  C3_validation_nullifies_error
    "Decoder: using validation layer, no errors detected" ""
    "Decoder: using validation layer, no errors detected"
    (by decide) (by decide)

/-- C4 counterexample: a completed run in which every case was SKIPPED
(one skipped case, none failed or errored) exits with status 1 in all
three drivers, refuting the claim that such a run exits 0. -/
theorem C4_all_skipped_exits_nonzero :
    encMainExit 0 0 1 = 1 ∧ profMainExit 0 0 1 = 1 ∧
    vvtMainExit [VvtStatus.skipped] = 1 := by
  decide

/-- C4 (amended): every driver exits non-zero when at least one case
FAILED; but the converse fails: the encoder and profile drivers exit 0
exactly when no case failed AND at least one passed (an all-SKIPPED run
exits 1), and `vulkan_video_test.py` exits 0 exactly when every case
PASSED and at least one case ran (any SKIPPED or ERROR case also makes the
exit non-zero). -/
theorem C4_exit_status_amended (p f s : Nat) (sts : List VvtStatus) :
    (0 < f → encMainExit p f s = 1 ∧ profMainExit p f s = 1) ∧
    (encMainExit p f s = 0 ↔ f = 0 ∧ 0 < p) ∧
    (profMainExit p f s = 0 ↔ f = 0 ∧ 0 < p) ∧
    (vvtMainExit sts = 0 ↔ sts ≠ [] ∧ ∀ st ∈ sts, st = VvtStatus.passed) := by
  have henc : encMainExit p f s = 0 ↔ f = 0 ∧ 0 < p := by
    by_cases hf : f = 0 <;> by_cases hp0 : 0 < p <;>
      simp [encMainExit, encRunAllSuccess, hf, hp0]
  have hprof : profMainExit p f s = 0 ↔ f = 0 ∧ 0 < p := by
    by_cases hf : f = 0 <;> by_cases hp0 : 0 < p <;>
      simp [profMainExit, profRunAllSuccess, hf, hp0]
  refine ⟨?_, henc, hprof, ?_⟩
  · intro hf
    have hf0 : f ≠ 0 := Nat.pos_iff_ne_zero.mp hf
    constructor
    · simp [encMainExit, encRunAllSuccess, hf0]
    · simp [profMainExit, profRunAllSuccess, hf0]
  · have hiff : vvtMainExit sts = 0 ↔ vvtAllPassed sts = true := by
      unfold vvtMainExit
      split <;> simp_all
    rw [hiff]
    simp only [vvtAllPassed, Bool.and_eq_true, beq_iff_eq,
      decide_eq_true_eq]
    rw [List.countP_eq_length]
    constructor
    · rintro ⟨hall, hlen⟩
      exact ⟨List.length_pos.mp hlen, fun st hst => by
        simpa using hall st hst⟩
    · rintro ⟨hne, hall⟩
      exact ⟨fun st hst => by simp [hall st hst], List.length_pos.mpr hne⟩

/-- C4 witness: the amended theorem applied at a run with one failure. -/
theorem C4_exit_status_amended_witness :
    encMainExit 3 1 0 = 1 ∧ profMainExit 3 1 0 = 1 :=
  (C4_exit_status_amended 3 1 0 []).1 (by decide)

/-- C5: when the required input file is absent (per the local-or-remote
existence oracle) and the case is not dropped by the codec filter, both
`EncoderTestRunner.run_test` and `DecoderTestRunner.run_test` record the
case as SKIPPED with the message "File not found" and hand no command to
`run_command`: the spawn trace is empty. -/
theorem C5_missing_input_skips_no_spawn (ecfg : EncConfig) (dcfg : DecConfig)
    (w : World) (name codec input : String) (width height bpp : Nat)
    (chroma : String) (extraArgs : List String)
    (hef : ecfg.filterCodec = "" ∨ ecfg.filterCodec = codec)
    (hdf : dcfg.filterCodec = "" ∨ dcfg.filterCodec = codec)
    (hmiss : w.fileExists input = false) :
    encRunTest ecfg w name codec input width height bpp chroma extraArgs =
      (some ⟨name, false, true, 0, "File not found"⟩, []) ∧
    decRunTest dcfg w name codec input =
      (some ⟨name, false, true, 0, "File not found"⟩, []) := by
  constructor
  · have hfe : (ecfg.filterCodec ≠ "" && ecfg.filterCodec ≠ codec) = false := by
      rcases hef with h | h <;> simp [h]
    unfold encRunTest
    rw [hfe]
    simp [hmiss]
  · have hfd : (dcfg.filterCodec ≠ "" && dcfg.filterCodec ≠ codec) = false := by
      rcases hdf with h | h <;> simp [h]
    unfold decRunTest
    rw [hfd]
    simp [hmiss]

/-- C5 witness: the theorem applied with a world in which no file exists:
the result is the SKIPPED record and an empty spawn trace. -/
theorem C5_missing_input_skips_no_spawn_witness :
    encRunTest ⟨"", "/tmp/out", 30, "vk-video-enc-test"⟩
      ⟨fun _ => false, fun _ => (0, "", "", 0)⟩ "H264_176x144_8bit" "h264"
      "176x144_420_8le.yuv" 176 144 8 "420" [] =
      (some ⟨"H264_176x144_8bit", false, true, 0, "File not found"⟩, []) ∧
    decRunTest ⟨"", "/tmp/out", 30, "vulkan-video-dec-test", false⟩
      ⟨fun _ => false, fun _ => (0, "", "", 0)⟩ "H264_176x144_8bit" "h264"
      "176x144_420_8le.yuv" =
      (some ⟨"H264_176x144_8bit", false, true, 0, "File not found"⟩, []) :=
  C5_missing_input_skips_no_spawn _ _ _ _ _ _ _ _ _ _ _
    (Or.inl rfl) (Or.inl rfl) rfl

/-- C6: every spawn fate of `run_command` is returned as a structured
triple: a timeout yields the sentinel (-1, "", "Timeout"), any other
exception yields (-1, "", message), and a completed process yields its own
exit code and captured output — `runCommandResult` being a total function
on all spawn outcomes is the statement that no exception propagates. -/
theorem C6_run_command_structured :
    runCommandResult SpawnOutcome.timeout = (-1, "", "Timeout") ∧
    (∀ msg, runCommandResult (SpawnOutcome.exnMsg msg) = (-1, "", msg)) ∧
    (∀ (rc : Int) (out err : String),
      runCommandResult (SpawnOutcome.completed rc out err) = (rc, out, err)) :=
  ⟨rfl, fun _ => rfl, fun _ _ _ => rfl⟩

/-- C7 counterexample: with the baseline configuration absent, the claim
requires the PSNR delta of a non-baseline configuration to render as
"N/A"; in the code the AQ-improvements block — the only place a PSNR delta
is rendered — is omitted entirely (empty list), while the size and VMAF
summary cells do render "N/A". -/
theorem C7_psnr_delta_omitted :
    aqImprovements
      [⟨⟨"combined", 0, 0, "Combined (Spatial + Temporal)"⟩,
        800, true, 37, 83⟩] = [] ∧
    summaryRowDeltas
      [⟨⟨"combined", 0, 0, "Combined (Spatial + Temporal)"⟩,
        800, true, 37, 83⟩]
      ⟨⟨"combined", 0, 0, "Combined (Spatial + Temporal)"⟩,
        800, true, 37, 83⟩ = (Cell.na, Cell.na) := by
  constructor
  · simp [aqImprovements, findBaseline, List.find?]
  · simp [summaryRowDeltas, sizeDiffCell, vmafDiffCell, baselineSize,
      baselineVmaf, findBaseline, List.find?]

/-- C7 (amended): when the baseline exists and its encode succeeded, each
successful non-baseline configuration gets an AQ-improvements line whose
deltas are exactly size = (cand - base) / base * 100 percent,
psnr = cand - base, vmaf = cand - base; the summary-table size and VMAF
delta cells equal the same formulas when the recorded baseline value is
positive and render "N/A" otherwise; when the baseline is absent the size
and VMAF cells render "N/A" and the PSNR delta is omitted entirely (the
improvements block is empty) rather than rendered as "N/A". -/
theorem C7_delta_computation_amended
    (results noBase : List EncoderResult) (b r : EncoderResult)
    (hb : findBaseline results = some b) (hbs : b.encodeSuccess = true)
    (hr : r ∈ results) (hname : r.config.name ≠ "no_aq")
    (hrs : r.encodeSuccess = true)
    (hnb : findBaseline noBase = none) :
    ((⟨r.config.description, (r.fileSize - b.fileSize) / b.fileSize * 100,
       r.psnrAvg - b.psnrAvg, r.vmafScore - b.vmafScore⟩ : Improvement)
        ∈ aqImprovements results) ∧
    summaryRowDeltas results r =
      ((if 0 < b.fileSize then
          Cell.val ((r.fileSize - b.fileSize) / b.fileSize * 100)
        else Cell.na),
       (if 0 < b.vmafScore then
          Cell.val (r.vmafScore - b.vmafScore)
        else Cell.na)) ∧
    aqImprovements noBase = [] ∧
    (∀ c, summaryRowDeltas noBase c = (Cell.na, Cell.na)) := by
  refine ⟨?_, ?_, ?_, ?_⟩
  · simp only [aqImprovements, hb, hbs, if_true]
    exact List.mem_map_of_mem _
      (List.mem_filter.mpr ⟨hr, by simp [hname, hrs]⟩)
  · simp [summaryRowDeltas, hrs, sizeDiffCell, vmafDiffCell, baselineSize,
      baselineVmaf, hb]
  · simp [aqImprovements, hnb]
  · intro c
    cases hc0 : c.encodeSuccess <;>
      simp [summaryRowDeltas, sizeDiffCell, vmafDiffCell, baselineSize,
        baselineVmaf, hnb, hc0]

/-- C7 witness: the specification example — baseline file_size 1000,
psnr_avg 35.0, vmaf 80.0 against candidate 800, 37.0, 83.0 yields exactly
size -20.0 percent, psnr +2.0 dB, vmaf +3.0. -/
theorem C7_delta_computation_amended_witness :
    (⟨"Combined (Spatial + Temporal)", -20, 2, 3⟩ : Improvement) ∈
      aqImprovements
        [⟨⟨"no_aq", -2, -2, "No AQ (Baseline)"⟩, 1000, true, 35, 80⟩,
         ⟨⟨"combined", 0, 0, "Combined (Spatial + Temporal)"⟩,
           800, true, 37, 83⟩] := by
  have h := C7_delta_computation_amended
    [⟨⟨"no_aq", -2, -2, "No AQ (Baseline)"⟩, 1000, true, 35, 80⟩,
     ⟨⟨"combined", 0, 0, "Combined (Spatial + Temporal)"⟩, 800, true, 37, 83⟩]
    [] ⟨⟨"no_aq", -2, -2, "No AQ (Baseline)"⟩, 1000, true, 35, 80⟩
    ⟨⟨"combined", 0, 0, "Combined (Spatial + Temporal)"⟩, 800, true, 37, 83⟩
    rfl rfl (by simp) (by decide) rfl rfl
  have h1 := h.1
  norm_num at h1
  convert h1 using 2

/-- C8: `parse_yuv_filename` maps "1920x1080_420_10le.yuv" to exactly
(1920, 1080, 10, "420"), and every successful parse decomposes the
filename per the naming convention with the tuple equal to the decimal
reading of the matched groups — so a filename not of that shape yields
`none`, never a partial or incorrect tuple. -/
theorem C8_parse_yuv_roundtrip {f : List Char} {w h bpp : Nat}
    {chroma : String}
    (hp : parse_yuv_filename f = some (w, h, bpp, chroma)) :
    parse_yuv_filename "1920x1080_420_10le.yuv".data =
      some (1920, 1080, 10, "420") ∧
    ∃ (ds1 ds2 ds3 ds4 : List Char) (packed nl : Bool),
      f = ds1 ++ 'x' :: ds2 ++ '_' :: ds3 ++ '_' :: ds4 ++ 'l' :: 'e' ::
        ((if packed then "_packed".data else []) ++ ".yuv".data ++
          (if nl then ['\n'] else [])) ∧
      ds1 ≠ [] ∧ ds1.all Char.isDigit = true ∧
      ds2 ≠ [] ∧ ds2.all Char.isDigit = true ∧
      ds3.length = 3 ∧ ds3.all Char.isDigit = true ∧
      ds4 ≠ [] ∧ ds4.all Char.isDigit = true ∧
      w = digitsToNat ds1 ∧ h = digitsToNat ds2 ∧ bpp = digitsToNat ds4 ∧
      chroma = ⟨ds3⟩ :=
  ⟨by decide, parse_yuv_filename_sound hp⟩

/-- C8 witness: the theorem applied at the parse of
"720x480_420_8le.yuv". -/
theorem C8_parse_yuv_roundtrip_witness :
    parse_yuv_filename "1920x1080_420_10le.yuv".data =
      some (1920, 1080, 10, "420") ∧
    ∃ (ds1 ds2 ds3 ds4 : List Char) (packed nl : Bool),
      "720x480_420_8le.yuv".data =
        ds1 ++ 'x' :: ds2 ++ '_' :: ds3 ++ '_' :: ds4 ++ 'l' :: 'e' ::
        ((if packed then "_packed".data else []) ++ ".yuv".data ++
          (if nl then ['\n'] else [])) ∧
      ds1 ≠ [] ∧ ds1.all Char.isDigit = true ∧
      ds2 ≠ [] ∧ ds2.all Char.isDigit = true ∧
      ds3.length = 3 ∧ ds3.all Char.isDigit = true ∧
      ds4 ≠ [] ∧ ds4.all Char.isDigit = true ∧
      720 = digitsToNat ds1 ∧ 480 = digitsToNat ds2 ∧
      8 = digitsToNat ds4 ∧ "420" = (⟨ds3⟩ : String) :=
  C8_parse_yuv_roundtrip (by decide)

/-- C9: the AQ-strength validation of `run_aq_encoder.py` rejects 1.5 with
an argument error (no clamping), accepts -2.0 which `build_command` passes
through verbatim as the disabled sentinel (interpreted as disabled since
-2.0 < -1.0), and accepts 0.0 which is passed through and not disabled
(engaged at default strength). -/
theorem C9_aq_strength_validation (t : ℚ) :
    aqArgCheck (3 / 2) t =
      Except.error "--spatial-aq must be <= 1.0 (use < -1.0 to disable)" ∧
    aqArgCheck (-2) 0 = Except.ok () ∧
    buildCommandAqFlags (some (-2)) (some 0) =
      [("--spatialAQStrength", -2), ("--temporalAQStrength", 0)] ∧
    aqDisabled (-2) = true ∧ aqDisabled 0 = false := by
  refine ⟨?_, ?_, rfl, ?_, ?_⟩
  · have h32 : (1 : ℚ) < 3 / 2 := by norm_num
    simp [aqArgCheck, h32]
  · norm_num [aqArgCheck]
  · simp only [aqDisabled]
    norm_num
  · simp only [aqDisabled]
    norm_num

/-- C10: in `EncoderTestRunner.run_test`, the guard
`"Done processing" in output or returncode == 0` is satisfied whenever the
exit code is 0, so a zero-exit invocation without a validation-error marker
is always PASSED (the classifier takes no artifact input at all), and the
final "Unknown error" branch is unreachable for every exit code. -/
theorem C10_unknown_error_unreachable (rc : Int) (output : String)
    (hm : containsSub (lowerStr output) "validation error" = false) :
    encClassify 0 output = EncOutcome.passed ∧
    encClassify rc output ≠ EncOutcome.unknownError := by
  constructor
  · simp [encClassify, hm]
  · by_cases h0 : (rc == 0) = true
    · cases hmk : containsSub (lowerStr output) "validation error" <;>
        simp [encClassify, h0, hmk]
    · simp [encClassify, h0]

/-- C10 witness: the theorem applied at exit code 5 and an ordinary
output line. -/
theorem C10_unknown_error_unreachable_witness :
    encClassify 0 "frame 0 encoded" = EncOutcome.passed ∧
    encClassify 5 "frame 0 encoded" ≠ EncOutcome.unknownError :=
  C10_unknown_error_unreachable 5 "frame 0 encoded" (by decide)

end VkVideo

